import Mathlib

/-!
# Shallow embedding of the apcs-ai conversation orchestration core

This file embeds, in Lean 4, the routing / permission / tool-dispatch state
machine of the `apcs-ai` repository (FastAPI + LangGraph agent):

* `src/src/nodes/orchestrator.py`   — intent routing, multi-intent queue
* `src/src/nodes/guardianAgent.py`  — permission gate, continuation dispatcher
* `src/src/nodes/bookingAgent.py`   — booking specialist (role-scoped tools)
* `src/src/nodes/capacityAgent.py`  — capacity specialist
* `src/src/utils/booking_tools.py`  — date defaulting of booking tools
* `src/api/main.py`                 — role string handling at the /chat boundary

External effects (LLM calls, backend REST calls) are modelled as explicit
parameters: each node takes the stubbed model response(s) and an environment
record supplying the backend results of each data tool, and returns the
LangGraph `Command` it would produce — an update dict (modelled as a record of
optional fields, `none` meaning "key absent from the update") plus a `goto`
destination.  Python truthiness (`if pending`, `or` defaults, `.get`) is
modelled explicitly where the source relies on it.
-/

namespace ApcsAi

/-- Python truthiness of an optional string (`None` and `""` are falsy). -/
def pyTruthyOS : Option String → Bool
  | none => false
  | some s => s ≠ ""

/-- Python substring containment: `needle in hay` on `str`. -/
def pyContains (hay needle : String) : Bool :=
  decide (List.IsInfix needle.toList hay.toList)

/-- Python `str.lower()` (character-wise, kernel-computable). -/
def pyLower (s : String) : String := ⟨s.data.map Char.toLower⟩

/-- Python `str.upper()` (character-wise, kernel-computable). -/
def pyUpper (s : String) : String := ⟨s.data.map Char.toUpper⟩

/-- Python `str.strip()`: drop whitespace from both ends. -/
def pyStrip (s : String) : String :=
  ⟨((s.data.dropWhile Char.isWhitespace).reverse.dropWhile
      Char.isWhitespace).reverse⟩

/-- A dynamic tool-argument value (the subset of JSON the handlers inspect). -/
inductive PyVal
  | s (v : String)
  | b (v : Bool)
  | null
deriving DecidableEq, Repr

/-- Python truthiness of a dynamic value. -/
def PyVal.truthy : PyVal → Bool
  | .s v => v ≠ ""
  | .b v => v
  | .null => false

/-- A tool-argument dict, as produced by the model's tool-call decision. -/
abbrev Args := List (String × PyVal)

/-- Python `d.get(k, default)` on an argument dict. -/
def Args.getD (a : Args) (k : String) (d : PyVal) : PyVal :=
  match a.lookup k with
  | some v => v
  | none => d

/-- String-valued argument access (missing or non-string yields the default). -/
def Args.getS (a : Args) (k : String) (d : String) : String :=
  match a.lookup k with
  | some (.s v) => v
  | _ => d

/-- Python `d[k] = v` on an argument dict. -/
def Args.set (a : Args) (k : String) (v : PyVal) : Args :=
  if (a.lookup k).isSome then
    a.map (fun p => if p.1 = k then (k, v) else p)
  else
    a ++ [(k, v)]

/-- The `prefill` object built by `prepare_booking_form`. -/
structure Prefill where
  date : String
  time : String
  terminal : String
  terminal_id : String
deriving DecidableEq, Repr

/-- The structured `ui_payload` delivered to the frontend
(`\x7b"ui_action": "OPEN_BOOKING_FORM", "prefill": ...\x7d` after the handler
re-parses the JSON string returned by `prepare_booking_form`). -/
structure UiPayload where
  ui_action : String
  prefill : Prefill
deriving DecidableEq, Repr

/-- The result value a tool returns to its handler.  Data tools return plain
strings; `communicate_with_user` returns a dict; `prepare_booking_form`
returns a JSON string that the handler immediately parses back — we keep the
parsed structure.  (The source stores `str(result)` in the `ToolMessage`; we
keep the structured value, whose rendering the claims never inspect.) -/
inductive ToolRes
  | str (s : String)
  | comm (message : String) (needs_followup : Bool) (missing_fields : List String)
  | form (payload : UiPayload)
deriving DecidableEq, Repr

/-- Access `result["message"]` — only ever evaluated on a `communicate_with_user`
dict in the source (the `needs_followup` flag is set only in that branch). -/
def ToolRes.message : ToolRes → String
  | .comm m _ _ => m
  | _ => ""

/-- A single tool call in a model response. -/
structure ToolCall where
  name : String
  args : Args
  id : String
deriving DecidableEq, Repr

/-- A model (AI) response: text content plus zero or more tool calls. -/
structure AIMsg where
  content : String
  tool_calls : List ToolCall
deriving DecidableEq, Repr

/-- A message in the conversation history. -/
inductive Msg
  | human (content : String)
  | ai (content : String) (tool_calls : List ToolCall)
  | tool (result : ToolRes) (tool_call_id : String) (name : String)
deriving DecidableEq, Repr

/-- Embed an `AIMsg` into the history. -/
def AIMsg.toMsg (m : AIMsg) : Msg := Msg.ai m.content m.tool_calls

/-- Is this a tool-result message? -/
def Msg.isToolRes : Msg → Bool
  | .tool _ _ _ => true
  | _ => false

/-- The `AgentState` (src/src/state/AgentState.py): the durable per-thread state.
Optional fields model Python `None` / absent keys uniformly (the nodes read
them only through `state.get(key, default)`). -/
structure AgentState where
  messages : List Msg := []
  current_intent : Option String := none
  language_detected : Option String := none
  draft_response : Option String := none
  route_lock : Option String := none
  pending_intents : List String := []
  user_id : Option String := none
  user_role : Option String := none
  terminal_id : Option String := none
  carrier_id : Option String := none
  ui_payload : Option UiPayload := none
deriving DecidableEq, Repr

/-- A LangGraph `Command.update` dict: `none` means the key is absent from the
update (the channel keeps its previous value); `some v` means the key is
present and set to `v`.  `messages` is append-only (`add_messages`). -/
structure StateUpdate where
  messages : List Msg := []
  current_intent : Option String := none
  language_detected : Option String := none
  draft_response : Option (Option String) := none
  route_lock : Option (Option String) := none
  pending_intents : Option (List String) := none
  ui_payload : Option (Option UiPayload) := none
deriving DecidableEq, Repr

/-- Apply an update to the state: `messages` appends, every other present key
replaces the channel value. -/
def applyUpdate (s : AgentState) (u : StateUpdate) : AgentState :=
  { s with
    messages := s.messages ++ u.messages
    current_intent :=
      match u.current_intent with | some v => some v | none => s.current_intent
    language_detected :=
      match u.language_detected with | some v => some v | none => s.language_detected
    draft_response :=
      match u.draft_response with | some v => v | none => s.draft_response
    route_lock :=
      match u.route_lock with | some v => v | none => s.route_lock
    pending_intents :=
      match u.pending_intents with | some v => v | none => s.pending_intents
    ui_payload :=
      match u.ui_payload with | some v => v | none => s.ui_payload }

/-- A routing destination (`goto`) in the graph. -/
inductive Dest
  | BOOKING
  | CAPACITY
  | GUARDIAN
  | END_
deriving DecidableEq, Repr

/-- The node name strings "BOOKING"/"CAPACITY" as destinations (used where the
source passes a string known to be one of the two specialists). -/
def destOfName (n : String) : Dest :=
  if n = "BOOKING" then Dest.BOOKING else Dest.CAPACITY

/-- A LangGraph `Command`: a state update plus a destination. -/
structure Command where
  update : StateUpdate
  goto : Dest
deriving DecidableEq, Repr

/-! ## Guardian (src/src/nodes/guardianAgent.py) -/

/-- One entry of `ROLE_PERMISSIONS`. -/
structure RoleConfig where
  allowed_intents : List String
  can_view_capacity : Bool
  can_view_history : Bool
  label : String
deriving DecidableEq, Repr

/-- The static `ROLE_PERMISSIONS` table. -/
def ROLE_PERMISSIONS : List (String × RoleConfig) :=
  [ ("CARRIER",
      { allowed_intents := ["booking", "capacity", "general"]
        can_view_capacity := true
        can_view_history := true
        label := "Truck Carrier" })
  , ("OPERATOR",
      { allowed_intents := ["booking", "capacity", "general"]
        can_view_capacity := true
        can_view_history := true
        label := "Terminal Operator" })
  , ("ADMIN",
      { allowed_intents := ["booking", "capacity", "general"]
        can_view_capacity := true
        can_view_history := true
        label := "Port Administrator" }) ]

/-- Function `check_permission`: role lookup falls back to the `CARRIER` entry. -/
def check_permission (user_role intent : String) : Bool :=
  let role_config :=
    match ROLE_PERMISSIONS.lookup user_role with
    | some c => c
    | none =>
        match ROLE_PERMISSIONS.lookup "CARRIER" with
        | some c => c
        | none => { allowed_intents := [], can_view_capacity := false,
                    can_view_history := false, label := "" }
  role_config.allowed_intents.contains intent

/-- Python `ROLE_PERMISSIONS.get(user_role, \x7b\x7d).get("label", "User")`. -/
def roleLabel (user_role : String) : String :=
  match ROLE_PERMISSIONS.lookup user_role with
  | some c => c.label
  | none => "User"

/-- The fixed denial message emitted by the Guardian. -/
def blockedMsg (user_role intent : String) : String :=
  "Access Denied: As a " ++ roleLabel user_role ++
  ", you do not have permission to access " ++ intent ++
  " data. Please contact your terminal operator for assistance."

/-- Section E of the Guardian: the final state update — polished message,
cleared draft, `route_lock` carried forward from the state, `ui_payload`
always written back (its current value when truthy, `None` otherwise). -/
def guardianBaseUpdate (s : AgentState) (final_content : String) : StateUpdate :=
  { messages := [Msg.ai final_content []]
    draft_response := some none
    route_lock := some s.route_lock
    ui_payload := some (if s.ui_payload.isSome then s.ui_payload else none) }

/-- Node `guardian_node`: permission gate, response finalization, multi-intent
continuation.  `final_content` is the (stubbed) polishing-LLM output. -/
def guardian_node (s : AgentState) (final_content : String) : Command :=
  let intent := s.current_intent.getD "general"
  let user_role := s.user_role.getD "CARRIER"
  -- B. PERMISSION CHECK
  if check_permission user_role intent = false then
    { update := { messages := [Msg.ai (blockedMsg user_role intent) []]
                  draft_response := some none
                  ui_payload := some none }
      goto := Dest.END_ }
  else
    -- E. BUILD FINAL STATE UPDATE
    let update := guardianBaseUpdate s final_content
    -- G. CHECK FOR PENDING INTENTS (multi-intent continuation)
    if s.pending_intents ≠ [] ∧ pyTruthyOS s.route_lock = false then
      match s.pending_intents with
      | [] => { update := update, goto := Dest.END_ }
      | next_intent :: remaining =>
          if next_intent = "BOOKING" ∨ next_intent = "CAPACITY" then
            { update := { update with
                            pending_intents := some remaining
                            current_intent := some (pyLower next_intent) }
              goto := destOfName next_intent }
          else
            { update := { update with pending_intents := some remaining }
              goto := Dest.END_ }
    else
      { update := update, goto := Dest.END_ }

/-! ## Orchestrator (src/src/nodes/orchestrator.py) -/

/-- The classifier's parsed output: `classify_intent_and_language` returns a
dict with `intent` (upper-cased), `language`, and optionally `intents`.  The
LLM call itself is external, so the classification is a node parameter. -/
structure Classification where
  intent : String
  language : String
  intents : Option (List String) := none
deriving DecidableEq, Repr

/-- Normalization of the MULTI `intents` list, exactly as in the source:
keep (trimmed, upper-cased) entries that are `BOOKING` or `CAPACITY` — with
no deduplication — and fall back to `["CAPACITY", "BOOKING"]` when fewer than
two entries survive. -/
def multiIntents (intents_list : List String) : List String :=
  let l := intents_list.filterMap (fun i =>
    let u := pyUpper (pyStrip i)
    if u = "BOOKING" ∨ u = "CAPACITY" then some u else none)
  if l.length < 2 then ["CAPACITY", "BOOKING"] else l

/-- Modelled from the spec's words for comparison (claim C4): restrict to
`\x7bBOOKING, CAPACITY\x7d`, **deduplicate**, and replace with the safe
default `["CAPACITY", "BOOKING"]` when fewer than two valid entries remain. -/
def multiIntents_spec (intents_list : List String) : List String :=
  let l := (intents_list.filterMap (fun i =>
    let u := pyUpper (pyStrip i)
    if u = "BOOKING" ∨ u = "CAPACITY" then some u else none)).dedup
  if l.length < 2 then ["CAPACITY", "BOOKING"] else l

/-- The role-conditioned HELP text (CASE D). -/
def helpText (user_role : String) : String :=
  let head :=
    [ "I\x27m the **Port Logistics Assistant**. Here\x27s what I can help you with:"
    , "" ]
  let body :=
    if user_role = "ADMIN" then
      [ "- **Bookings** — View all bookings across every terminal, search by carrier, status, or terminal, and manage booking operations."
      , "- **Capacity** — Check real-time capacity, slot availability, and utilization for any terminal on any date."
      , "- **Terminals** — Get an overview of all terminals in the system." ]
    else if user_role = "OPERATOR" then
      [ "- **Bookings** — View and manage bookings for your terminal."
      , "- **Capacity** — Check slot availability and capacity status for your terminal on any date." ]
    else
      [ "- **Bookings** — View your bookings, check booking status, or start a new booking."
      , "- **Capacity** — Check available time slots and terminal capacity for any date." ]
  let tail :=
    [ ""
    , "Just ask me a question and I\x27ll take care of the rest!" ]
  String.intercalate "\n" (head ++ body ++ tail)

/-- The fixed OUT_OF_SCOPE refusal draft (CASE E). -/
def outOfScopeDraft : String :=
  "I\x27m sorry, I can only help with port logistics — bookings, terminal capacity, and scheduling. I can\x27t assist with that topic. Is there anything else I can help you with?"

/-- The fixed chitchat greeting draft (CASE F). -/
def chitchatDraft : String :=
  "Hello! I\x27m the Port Logistics Assistant. I can help you with bookings, terminal capacity, and scheduling. What would you like to know?"

/-- Step 3 of the orchestrator: the multi-intent continuation re-entry.
`some cmd` when the branch returns; `none` when it falls through (no pending
work, a continuation-exempt intent, or an invalid — skipped — queue head). -/
def orchContinuation (s : AgentState) (cls : Classification) : Option Command :=
  let intent := cls.intent
  let contToken : Bool :=
    intent = "MULTI" ∨ intent = "BOOKING" ∨ intent = "CAPACITY" ∨ intent = "CHITCHAT"
  if s.pending_intents ≠ [] ∧ contToken = false then
    match s.pending_intents with
    | [] => none
    | next_intent :: remaining =>
        if next_intent = "BOOKING" ∨ next_intent = "CAPACITY" then
          some { update := { current_intent := some (pyLower next_intent)
                             language_detected := some cls.language
                             pending_intents := some remaining }
                 goto := destOfName next_intent }
        else
          none  -- invalid pending head: skipped, fall through to routing
  else none

/-- Step 4 of the orchestrator: the CASE 0 – CASE F routing chain (substring
matching of the intent, as in the source's `"MULTI" in intent`). -/
def orchRoute (s : AgentState) (cls : Classification) : Command :=
  let intent := cls.intent
  let language := cls.language
  if pyContains intent "MULTI" then
    -- CASE 0: MULTI
    match multiIntents (cls.intents.getD ["CAPACITY", "BOOKING"]) with
    | [] => -- unreachable: multiIntents always returns at least two entries
      { update := {}, goto := Dest.GUARDIAN }
    | first_intent :: remaining_intents =>
      { update := { current_intent := some (pyLower first_intent)
                    language_detected := some language
                    pending_intents := some remaining_intents }
        goto := destOfName first_intent }
  else if pyContains intent "BOOKING" then
    { update := { current_intent := some "booking"
                  language_detected := some language
                  pending_intents := some [] }
      goto := Dest.BOOKING }
  else if pyContains intent "CAPACITY" then
    { update := { current_intent := some "capacity"
                  language_detected := some language
                  pending_intents := some [] }
      goto := Dest.CAPACITY }
  else if pyContains intent "HELP" then
    { update := { draft_response := some (some (helpText (s.user_role.getD "CARRIER")))
                  current_intent := some "general"
                  language_detected := some language
                  pending_intents := some [] }
      goto := Dest.GUARDIAN }
  else if pyContains intent "OUT_OF_SCOPE" then
    { update := { draft_response := some (some outOfScopeDraft)
                  current_intent := some "general"
                  language_detected := some language
                  pending_intents := some [] }
      goto := Dest.GUARDIAN }
  else
    { update := { draft_response := some (some chitchatDraft)
                  current_intent := some "general"
                  language_detected := some language
                  pending_intents := some [] }
      goto := Dest.GUARDIAN }

/-- Node `orchestrator_node`: routes the turn from the (stubbed) classification.
Note that `route_lock` is read only to build the classifier prompt — it is
never consulted by the routing logic and never written. -/
def orchestrator_node (s : AgentState) (cls : Classification) : Command :=
  match orchContinuation s cls with
  | some cmd => cmd
  | none => orchRoute s cls

/-! ## Date handling in booking tools (src/src/utils/booking_tools.py) -/

/-- The string domain of date parameters: either the `strftime("%Y-%m-%d")`
rendering of a concrete day (represented by its offset in days), or a raw
string passed through unchanged. -/
inductive PyDate
  | abs (day : Int)
  | raw (s : String)
deriving DecidableEq, Repr

/-- Function `_resolve_date`: convert relative date tokens to concrete dates; `today`
is the current day (as an offset). -/
def resolve_date (value : String) (today : Int) : PyDate :=
  let v := pyUpper (pyStrip value)
  if v = "TODAY" ∨ v = "" then .abs today
  else if v = "TOMORROW" then .abs (today + 1)
  else if v = "YESTERDAY" then .abs (today - 1)
  else .raw value

/-- Tool `get_all_bookings`: the effective `start_date`
(`_resolve_date(start_date) if start_date else today.strftime(...)`). -/
def get_all_bookings_startDate (start_date : Option String) (today : Int) : PyDate :=
  if pyTruthyOS start_date then resolve_date (start_date.getD "") today
  else .abs today

/-- Tool `get_all_bookings`: the effective `end_date` (defaults to
`today + datetime.timedelta(days=3)`). -/
def get_all_bookings_endDate (end_date : Option String) (today : Int) : PyDate :=
  if pyTruthyOS end_date then resolve_date (end_date.getD "") today
  else .abs (today + 3)

/-- Tool `get_bookings_by_user`: the effective `end_date` (defaults to
`today + datetime.timedelta(days=7)`). -/
def get_bookings_by_user_endDate (end_date : Option String) (today : Int) : PyDate :=
  if pyTruthyOS end_date then resolve_date (end_date.getD "") today
  else .abs (today + 7)

/-! ## Shared tools (src/src/utils/common_tools.py, booking_tools.py) -/

/-- Tool `communicate_with_user`: pure; returns the communication dict. -/
def communicate_with_user (args : Args) : ToolRes :=
  .comm (args.getS "message" "")
        (PyVal.truthy (args.getD "needs_followup" (.b false)))
        []

/-- Tool `prepare_booking_form`: resolves the terminal name against the terminals
map (`terminals_map.get(terminal) or terminal`) and builds the form payload
(the JSON round-trip through `json.dumps`/`json.loads` is elided). -/
def prepare_booking_form (terminals_map : List (String × String)) (args : Args) :
    UiPayload :=
  let date := args.getS "date" ""
  let time := args.getS "time" ""
  let terminal := args.getS "terminal" ""
  let terminal_id :=
    match terminals_map.lookup terminal with
    | some v => if v = "" then terminal else v
    | none => terminal
  { ui_action := "OPEN_BOOKING_FORM"
    prefill := { date := date, time := time, terminal := terminal
                 terminal_id := terminal_id } }

/-- The human-readable confirmation text built from the form prefill. -/
def bookingFormText (p : Prefill) : String :=
  "I\x27ve prepared a booking form for you:\n• Date: " ++ p.date ++
  "\n• Time: " ++ p.time ++ "\n• Terminal: " ++ p.terminal ++
  "\nPlease review and confirm in the form below."

/-! ## Booking agent (src/src/nodes/bookingAgent.py) -/

/-- External collaborators of the booking agent: the role-scoped system
prompts (built from pre-fetched backend data), the terminals map, the backend
result of each data tool, and the second (synthesis) model response. -/
structure BookingEnv where
  adminPrompt : String
  operatorPrompt : String
  carrierPrompt : String
  terminals_map : List (String × String)
  sched : Args → String
  bookingsByUser : Args → String
  bookingsByTerminal : Args → String
  capacityByTerminal : Args → String
  allBookings : Args → String
  finalResponse : AIMsg

/-- The role branching (section B): the bound toolset (by tool name) and the
system prompt.  Any role other than exactly `ADMIN` / `OPERATOR` / `CARRIER`
leaves both at their initial values (`[]`, `""`). -/
def booking_setup (env : BookingEnv) (s : AgentState) : List String × String :=
  let user_role := s.user_role.getD "CARRIER"
  if user_role = "ADMIN" then
    (["get_all_bookings", "get_bookings_by_terminal_id",
      "get_capacity_by_terminal_id", "get_terminal_schedule",
      "communicate_with_user"], env.adminPrompt)
  else if user_role = "OPERATOR" then
    (["get_bookings_by_terminal_id", "get_capacity_by_terminal_id",
      "get_terminal_schedule", "communicate_with_user"], env.operatorPrompt)
  else if user_role = "CARRIER" then
    (["prepare_booking_form", "communicate_with_user",
      "get_bookings_by_user"], env.carrierPrompt)
  else
    ([], "")

/-- Outcome of the booking agent's tool dispatch chain (section D). -/
structure DispatchOut where
  result : ToolRes
  ui_signal : Option UiPayload := none
  booking_text : String := ""
  needs_followup : Bool := false
deriving DecidableEq, Repr

/-- The names the booking dispatch chain recognizes (the full if/elif chain —
note this is the union over all roles, not the role-bound toolset). -/
def bookingDispatchNames : List String :=
  ["prepare_booking_form", "get_terminal_schedule", "communicate_with_user",
   "get_bookings_by_user", "get_bookings_by_terminal_id",
   "get_capacity_by_terminal_id", "get_all_bookings"]

/-- The booking agent's tool dispatch (the if/elif chain over `t_name`). -/
def bookingDispatch (env : BookingEnv) (s : AgentState) (call : ToolCall) :
    DispatchOut :=
  let t_name := call.name
  if t_name = "prepare_booking_form" then
    let payload := prepare_booking_form env.terminals_map call.args
    { result := .form payload
      ui_signal := some payload
      booking_text := bookingFormText payload.prefill }
  else if t_name = "get_terminal_schedule" then
    { result := .str (env.sched call.args) }
  else if t_name = "communicate_with_user" then
    { result := communicate_with_user call.args
      needs_followup := PyVal.truthy (call.args.getD "needs_followup" (.b false)) }
  else if t_name = "get_bookings_by_user" then
    let args := (call.args.set "user_id" (.s (s.user_id.getD "guest"))).set
                  "user_role" (.s (s.user_role.getD "CARRIER"))
    let args :=
      if pyTruthyOS s.carrier_id then
        args.set "carrier_id" (.s (s.carrier_id.getD ""))
      else args
    { result := .str (env.bookingsByUser args) }
  else if t_name = "get_bookings_by_terminal_id" then
    { result := .str (env.bookingsByTerminal call.args) }
  else if t_name = "get_capacity_by_terminal_id" then
    { result := .str (env.capacityByTerminal call.args) }
  else if t_name = "get_all_bookings" then
    { result := .str (env.allBookings call.args) }
  else
    { result := .str ("Unknown tool: " ++ t_name) }

/-- Node `booking_agent_node`: one model decision (`response`), at most one tool
execution, three exits — form short-circuit, clarification lock, synthesis. -/
def booking_agent_node (env : BookingEnv) (s : AgentState) (response : AIMsg) :
    Command :=
  match response.tool_calls with
  | [] =>
      { update := { messages := [response.toMsg]
                    draft_response := some (some response.content)
                    route_lock := some none }
        goto := Dest.GUARDIAN }
  | call :: _ =>
      let d := bookingDispatch env s call
      let tool_outputs := [Msg.tool d.result call.id call.name]
      match d.ui_signal with
      | some payload =>
          { update := { messages := [response.toMsg] ++ tool_outputs
                        draft_response := some (some d.booking_text)
                        ui_payload := some (some payload)
                        route_lock := some none }
            goto := Dest.GUARDIAN }
      | none =>
          if d.needs_followup then
            { update := { messages := [response.toMsg] ++ tool_outputs
                          draft_response := some (some d.result.message)
                          route_lock := some (some "BOOKING") }
              goto := Dest.GUARDIAN }
          else
            { update := { messages := [response.toMsg] ++ tool_outputs ++
                                      [env.finalResponse.toMsg]
                          draft_response := some (some env.finalResponse.content)
                          route_lock := some none }
              goto := Dest.GUARDIAN }

/-! ## Capacity agent (src/src/nodes/capacityAgent.py) -/

/-- External collaborators of the capacity agent. -/
structure CapacityEnv where
  details : Args → String
  summary : Args → String
  availability : Args → String
  capByTerminal : Args → String
  finalResponse : AIMsg

/-- The capacity agent's bound toolset: the base tools, plus
`get_capacity_by_terminal_id` for ADMIN and OPERATOR. -/
def capacity_bound_tools (user_role : String) : List String :=
  let base := ["check_availability", "get_terminal_details",
               "communicate_with_user", "get_capacity_summary"]
  if user_role = "ADMIN" ∨ user_role = "OPERATOR" then
    base ++ ["get_capacity_by_terminal_id"]
  else base

/-- The names the capacity dispatch chain recognizes. -/
def capacityDispatchNames : List String :=
  ["get_terminal_details", "get_capacity_summary", "communicate_with_user",
   "check_availability", "get_capacity_by_terminal_id"]

/-- The capacity agent's tool dispatch (the if/elif chain over `t_name`). -/
def capacityDispatch (env : CapacityEnv) (call : ToolCall) : DispatchOut :=
  let t_name := call.name
  if t_name = "get_terminal_details" then
    { result := .str (env.details call.args) }
  else if t_name = "get_capacity_summary" then
    { result := .str (env.summary call.args) }
  else if t_name = "communicate_with_user" then
    { result := communicate_with_user call.args
      needs_followup := PyVal.truthy (call.args.getD "needs_followup" (.b false)) }
  else if t_name = "check_availability" then
    { result := .str (env.availability call.args) }
  else if t_name = "get_capacity_by_terminal_id" then
    { result := .str (env.capByTerminal call.args) }
  else
    { result := .str ("Unknown tool: " ++ t_name) }

/-- Node `capacity_node`: same single-tool dispatch shape as the booking agent
(without the form short-circuit; clarification locks to `CAPACITY`). -/
def capacity_node (env : CapacityEnv) (_s : AgentState) (ai_msg : AIMsg) :
    Command :=
  match ai_msg.tool_calls with
  | [] =>
      { update := { messages := [ai_msg.toMsg]
                    draft_response := some (some ai_msg.content)
                    route_lock := some none }
        goto := Dest.GUARDIAN }
  | call :: _ =>
      let d := capacityDispatch env call
      let tool_outputs := [Msg.tool d.result call.id call.name]
      if d.needs_followup then
        { update := { messages := [ai_msg.toMsg] ++ tool_outputs
                      draft_response := some (some d.result.message)
                      route_lock := some (some "CAPACITY") }
          goto := Dest.GUARDIAN }
      else
        { update := { messages := [ai_msg.toMsg] ++ tool_outputs ++
                                  [env.finalResponse.toMsg]
                      draft_response := some (some env.finalResponse.content)
                      route_lock := some none }
          goto := Dest.GUARDIAN }

/-! ## /chat boundary (src/api/main.py) -/

/-- The `user_role` stored into the input state by the `/chat` endpoint:
`req.user_role or "CARRIER"` — no case normalization. -/
def chat_user_role (req_user_role : Option String) : String :=
  if pyTruthyOS req_user_role then req_user_role.getD "" else "CARRIER"

/-! ## Concrete instances used to evaluate the definitions -/

/-- A booking-agent environment with constant collaborator results. -/
def envB : BookingEnv :=
  { adminPrompt := "ADMIN PROMPT"
    operatorPrompt := "OPERATOR PROMPT"
    carrierPrompt := "CARRIER PROMPT"
    terminals_map := [("Terminal A", "T-A")]
    sched := fun _ => "SCHED"
    bookingsByUser := fun _ => "MYBOOKINGS"
    bookingsByTerminal := fun _ => "TBOOKINGS"
    capacityByTerminal := fun _ => "TCAP"
    allBookings := fun _ => "ALLDATA"
    finalResponse := { content := "SUMMARY", tool_calls := [] } }

/-- A capacity-agent environment with constant collaborator results. -/
def envC : CapacityEnv :=
  { details := fun _ => "DETAILS"
    summary := fun _ => "SUMMARY-DATA"
    availability := fun _ => "AVAIL"
    capByTerminal := fun _ => "TCAP"
    finalResponse := { content := "CAP SUMMARY", tool_calls := [] } }

/-- A baseline CARRIER state. -/
def s0 : AgentState :=
  { messages := [Msg.human "hello"]
    user_id := some "u1"
    user_role := some "CARRIER"
    carrier_id := some "car-1" }

/-- A model response carrying two tool calls (single-tool enforcement). -/
def call1 : ToolCall := { name := "get_terminal_schedule", args := [], id := "c1" }

def call2 : ToolCall := { name := "check_availability", args := [], id := "c2" }

def resp2 : AIMsg := { content := "", tool_calls := [call1, call2] }

/-- A hallucinated tool call, outside every dispatch chain. -/
def callUnknown : ToolCall := { name := "make_coffee", args := [], id := "c3" }

def respUnknown : AIMsg := { content := "", tool_calls := [callUnknown] }

/-- A tool call for `get_all_bookings` (not bound for CARRIER). -/
def callAll : ToolCall := { name := "get_all_bookings", args := [], id := "c4" }

/-- A state whose `route_lock` is set to `BOOKING` (clarification pending). -/
def s1lock : AgentState :=
  { messages := [Msg.human "tomorrow"]
    route_lock := some "BOOKING"
    user_role := some "CARRIER" }

/-- A classification answering `CAPACITY`. -/
def clsCap : Classification := { intent := "CAPACITY", language := "English" }

/-- A MULTI classification with a duplicated intents list. -/
def clsMultiDup : Classification :=
  { intent := "MULTI", language := "English"
    intents := some ["BOOKING", "BOOKING"] }

/-- A chitchat classification. -/
def clsChitchat : Classification := { intent := "CHITCHAT", language := "English" }

/-- A booking classification. -/
def clsBooking : Classification := { intent := "BOOKING", language := "English" }

/-- A help classification (continuation-relevant side intent). -/
def clsHelp : Classification := { intent := "HELP", language := "English" }

/-- A state with one queued pending intent and no lock. -/
def s5queue : AgentState :=
  { messages := [Msg.human "thanks!"]
    current_intent := some "capacity"
    pending_intents := ["BOOKING"]
    user_role := some "CARRIER" }

/-- A state reaching the Guardian with a queued intent and no lock. -/
def s3queue : AgentState :=
  { messages := [Msg.human "slots and a booking"]
    current_intent := some "capacity"
    draft_response := some "CAPACITY DATA"
    pending_intents := ["BOOKING"]
    user_role := some "CARRIER" }

/-- A state reaching the Guardian with an intent outside the allowed set. -/
def s6denied : AgentState :=
  { messages := [Msg.human "show history"]
    current_intent := some "history"
    draft_response := some "HISTORY DATA"
    pending_intents := ["BOOKING"]
    user_role := some "CARRIER" }

/-- A lowercase role, as the public /chat interface would store it. -/
def sCarrierLower : AgentState :=
  { messages := [Msg.human "book a slot"]
    user_role := some "carrier" }

/-- The form payload persisted by a booking-form turn. -/
def formPayload : UiPayload :=
  { ui_action := "OPEN_BOOKING_FORM"
    prefill := { date := "2026-10-13", time := "10:00"
                 terminal := "Terminal A", terminal_id := "T-A" } }

/-- Start of the turn after a booking-form turn: the checkpointed state still
holds the previous turn's `ui_payload`. -/
def s7start : AgentState :=
  { messages := [Msg.human "any capacity tomorrow?"]
    current_intent := some "booking"
    language_detected := some "English"
    pending_intents := []
    user_id := some "u1"
    user_role := some "CARRIER"
    carrier_id := some "car-1"
    ui_payload := some formPayload }

def cls7 : Classification := { intent := "CAPACITY", language := "English" }

/-- The capacity model answer for that turn: no tool call. -/
def cap7resp : AIMsg := { content := "Plenty of capacity tomorrow.", tool_calls := [] }

def s7afterOrch : AgentState :=
  applyUpdate s7start (orchestrator_node s7start cls7).update

def s7afterCap : AgentState :=
  applyUpdate s7afterOrch (capacity_node envC s7afterOrch cap7resp).update

/-- The persisted state at the end of the capacity turn. -/
def s7final : AgentState :=
  applyUpdate s7afterCap (guardian_node s7afterCap "Here you go.").update

/-! ## Theorems -/

/-- Helper: a role key outside the table falls back to the CARRIER row. -/
theorem check_permission_fallback (r : String) (h1 : r ≠ "CARRIER")
    (h2 : r ≠ "OPERATOR") (h3 : r ≠ "ADMIN") (i : String) :
    check_permission r i = check_permission "CARRIER" i := by
  have e1 : (r == "CARRIER") = false := by simpa using h1
  have e2 : (r == "OPERATOR") = false := by simpa using h2
  have e3 : (r == "ADMIN") = false := by simpa using h3
  simp [check_permission, ROLE_PERMISSIONS, List.lookup, e1, e2, e3]

/-- C6: `check_permission(user_role, intent)` is a pure function of the static
`ROLE_PERMISSIONS` table — it returns true iff the intent is one of
`booking`, `capacity`, `general`, for every role (unknown roles fall back to
the CARRIER entry); and on denial the Guardian emits the fixed Access Denied
message with the role's label, nulls `draft_response` and `ui_payload`, and
ends the turn unconditionally, regardless of `pending_intents`. -/
theorem C6_permission_gate :
    (∀ r i, check_permission r i =
        (["booking", "capacity", "general"] : List String).contains i)
    ∧ (∀ r, r ≠ "CARRIER" → r ≠ "OPERATOR" → r ≠ "ADMIN" →
        ∀ i, check_permission r i = check_permission "CARRIER" i)
    ∧ (∀ s c,
        check_permission (s.user_role.getD "CARRIER") (s.current_intent.getD "general")
          = false →
        guardian_node s c =
          { update := { messages :=
                          [Msg.ai (blockedMsg (s.user_role.getD "CARRIER")
                                              (s.current_intent.getD "general")) []]
                        draft_response := some none
                        ui_payload := some none }
            goto := Dest.END_ }) := by
  refine ⟨?_, ?_, ?_⟩
  · intro r i
    by_cases h1 : r = "CARRIER"
    · subst h1; rfl
    · by_cases h2 : r = "OPERATOR"
      · subst h2; rfl
      · by_cases h3 : r = "ADMIN"
        · subst h3; rfl
        · rw [check_permission_fallback r h1 h2 h3 i]; rfl
  · exact check_permission_fallback
  · intro s c hdenied
    simp [guardian_node, hdenied]

/-- C6 witness: CARRIER with the (hypothetical) `history` intent is denied;
evaluating the Guardian at a concrete such state yields the fixed denial
message with the `Truck Carrier` label and terminates the turn even though a
pending intent is queued. -/
theorem C6_witness :
    check_permission "CARRIER" "history" = false
    ∧ guardian_node s6denied "POLISHED" =
        { update := { messages := [Msg.ai (blockedMsg "CARRIER" "history") []]
                      draft_response := some none
                      ui_payload := some none }
          goto := Dest.END_ } := by
  refine ⟨by decide, ?_⟩
  exact C6_permission_gate.2.2 s6denied "POLISHED" (by decide)

/-- C9, counterexample: with both dates omitted, `get_all_bookings` defaults
to a 3-day range — `end_date` is three days after today, not seven. -/
theorem C9_counterexample :
    get_all_bookings_startDate none 0 = PyDate.abs 0
    ∧ get_all_bookings_endDate none 0 = PyDate.abs 3
    ∧ PyDate.abs 3 ≠ PyDate.abs 7 := by
  decide

/-- C9, amended: `get_all_bookings` called with no `start_date` and no
`end_date` defaults to the range from today to today + 3 days (the 7-day
default belongs to `get_bookings_by_user`). -/
theorem C9_amended : ∀ today : Int,
    get_all_bookings_startDate none today = PyDate.abs today
    ∧ get_all_bookings_endDate none today = PyDate.abs (today + 3)
    ∧ get_bookings_by_user_endDate none today = PyDate.abs (today + 7) :=
  fun _ => ⟨rfl, rfl, rfl⟩

/-- C10: role dispatch is an exact, case-sensitive string match.  The /chat
endpoint stores the role string unmodified (`"carrier"` stays lowercase); the
booking agent's role branching then binds an empty toolset and an empty
system prompt for any role other than exactly `ADMIN`/`OPERATOR`/`CARRIER`,
while `check_permission` falls back to the CARRIER row. -/
theorem C10_role_exact_match :
    chat_user_role (some "carrier") = "carrier"
    ∧ (∀ env s r, s.user_role = some r →
        r ≠ "ADMIN" → r ≠ "OPERATOR" → r ≠ "CARRIER" →
        booking_setup env s = ([], ""))
    ∧ (∀ r, r ≠ "CARRIER" → r ≠ "OPERATOR" → r ≠ "ADMIN" →
        ∀ i, check_permission r i = check_permission "CARRIER" i) := by
  refine ⟨rfl, ?_, check_permission_fallback⟩
  intro env s r hr h1 h2 h3
  unfold booking_setup
  rw [hr]
  simp [Option.getD, h1, h2, h3]

/-- Helper: the routing chain never writes the `route_lock` channel. -/
theorem orchRoute_route_lock_none (s : AgentState) (cls : Classification) :
    (orchRoute s cls).update.route_lock = none := by
  simp only [orchRoute]
  repeat' split
  all_goals rfl

/-- Helper: the continuation branch never writes the `route_lock` channel. -/
theorem orchContinuation_route_lock_none (s : AgentState) (cls : Classification)
    (cmd : Command) (hc : orchContinuation s cls = some cmd) :
    cmd.update.route_lock = none := by
  simp only [orchContinuation] at hc
  split at hc
  · split at hc
    · simp at hc
    · split at hc
      · injection hc with e
        subst e
        rfl
      · simp at hc
  · simp at hc

/-- C1, counterexample: with `route_lock = "BOOKING"` set, a classifier that
returns `CAPACITY` for the next turn sends the orchestrator to CAPACITY — the
lock does not fix the destination. -/
theorem C1_counterexample :
    s1lock.route_lock = some "BOOKING"
    ∧ (orchestrator_node s1lock clsCap).goto = Dest.CAPACITY
    ∧ Dest.CAPACITY ≠ Dest.BOOKING := by
  refine ⟨rfl, rfl, by decide⟩

/-- C1, amended: the orchestrator's routing is invariant in `route_lock` (the
lock is only handed to the classifier prompt); the destination follows the
returned intent — so the lock forces the specialist only when the classifier
honors it by returning that specialist's name — and the orchestrator never
writes `route_lock` (it is the specialists that write it on every exit). -/
theorem C1_amended :
    (∀ s cls lock,
        orchestrator_node { s with route_lock := lock } cls
          = orchestrator_node s cls)
    ∧ (∀ s cls, (orchestrator_node s cls).update.route_lock = none)
    ∧ (∀ s cls, cls.intent = "BOOKING" →
        (orchestrator_node s cls).goto = Dest.BOOKING)
    ∧ (∀ s cls, cls.intent = "CAPACITY" →
        (orchestrator_node s cls).goto = Dest.CAPACITY)
    ∧ (∀ benv s resp,
        ((booking_agent_node benv s resp).update.route_lock).isSome = true)
    ∧ (∀ cenv s resp,
        ((capacity_node cenv s resp).update.route_lock).isSome = true) := by
  refine ⟨?_, ?_, ?_, ?_, ?_, ?_⟩
  · intro s cls lock
    cases s
    rfl
  · intro s cls
    unfold orchestrator_node
    cases hc : orchContinuation s cls with
    | none => exact orchRoute_route_lock_none s cls
    | some cmd => exact orchContinuation_route_lock_none s cls cmd hc
  · intro s cls h
    have hc : orchContinuation s cls = none := by
      simp [orchContinuation, h]
    unfold orchestrator_node
    rw [hc]
    unfold orchRoute
    rw [h]
    rfl
  · intro s cls h
    have hc : orchContinuation s cls = none := by
      simp [orchContinuation, h]
    unfold orchestrator_node
    rw [hc]
    unfold orchRoute
    rw [h]
    rfl
  · intro benv s resp
    unfold booking_agent_node
    cases htc : resp.tool_calls with
    | nil => rfl
    | cons call rest =>
        cases hui : (bookingDispatch benv s call).ui_signal
        · by_cases hnf : (bookingDispatch benv s call).needs_followup <;>
            simp [hui, hnf]
        · simp [hui]
  · intro cenv s resp
    unfold capacity_node
    cases htc : resp.tool_calls with
    | nil => rfl
    | cons call rest =>
        by_cases hnf : (capacityDispatch cenv call).needs_followup <;>
          simp [hnf]

/-- C1 witness: the invariance and lock-free-update facts evaluated at
concrete states and classifications. -/
theorem C1_witness :
    orchestrator_node { s0 with route_lock := some "BOOKING" } clsCap
        = orchestrator_node s0 clsCap
    ∧ (orchestrator_node s0 clsCap).update.route_lock = none
    ∧ (orchestrator_node s0 clsBooking).goto = Dest.BOOKING
    ∧ (orchestrator_node s0 clsCap).goto = Dest.CAPACITY
    ∧ ((booking_agent_node envB s0 resp2).update.route_lock).isSome = true
    ∧ ((capacity_node envC s0 resp2).update.route_lock).isSome = true := by
  have hh := C1_amended
  exact ⟨hh.1 s0 clsCap (some "BOOKING"), hh.2.1 s0 clsCap,
         hh.2.2.1 s0 clsBooking rfl, hh.2.2.2.1 s0 clsCap rfl,
         hh.2.2.2.2.1 envB s0 resp2, hh.2.2.2.2.2 envC s0 resp2⟩

/-- C4, counterexample: the MULTI normalization does not deduplicate — on
`["BOOKING", "BOOKING"]` the code keeps both copies and routes to BOOKING,
while the claim's restrict-dedup-default pipeline would yield
`["CAPACITY", "BOOKING"]` and route to CAPACITY. -/
theorem C4_counterexample :
    multiIntents ["BOOKING", "BOOKING"] = ["BOOKING", "BOOKING"]
    ∧ multiIntents_spec ["BOOKING", "BOOKING"] = ["CAPACITY", "BOOKING"]
    ∧ multiIntents ["BOOKING", "BOOKING"]
        ≠ multiIntents_spec ["BOOKING", "BOOKING"]
    ∧ (orchestrator_node s0 clsMultiDup).goto = Dest.BOOKING
    ∧ (orchestrator_node s0 clsMultiDup).update.pending_intents
        = some ["BOOKING"]
    ∧ Dest.BOOKING ≠ Dest.CAPACITY := by
  refine ⟨by decide, by decide, by decide, rfl, rfl, by decide⟩

/-- C4, amended: on a `MULTI` classification the orchestrator restricts the
returned intents list to BOOKING/CAPACITY (trimmed, uppercased, duplicates
kept), falls back to `["CAPACITY", "BOOKING"]` when fewer than two valid
entries survive, sets `current_intent` to the lowercased first element,
queues exactly the remaining elements, and routes to the first element. -/
theorem C4_amended :
    ∀ (s : AgentState) (cls : Classification) (h : String) (t : List String),
      cls.intent = "MULTI" →
      multiIntents (cls.intents.getD ["CAPACITY", "BOOKING"]) = h :: t →
      (orchestrator_node s cls).update.current_intent = some (pyLower h)
      ∧ (orchestrator_node s cls).update.language_detected = some cls.language
      ∧ (orchestrator_node s cls).update.pending_intents = some t
      ∧ (orchestrator_node s cls).goto = destOfName h := by
  intro s cls h t hi hm
  have hc : orchContinuation s cls = none := by
    simp [orchContinuation, hi]
  have hpc : pyContains "MULTI" "MULTI" = true := by decide
  refine ⟨?_, ?_, ?_, ?_⟩ <;>
    simp [orchestrator_node, hc, orchRoute, hi, hm, hpc]

/-- C4 witness: the amended behaviour at the duplicated-intents input. -/
theorem C4_witness :
    (orchestrator_node s0 clsMultiDup).update.current_intent = some "booking"
    ∧ (orchestrator_node s0 clsMultiDup).update.pending_intents
        = some ["BOOKING"]
    ∧ (orchestrator_node s0 clsMultiDup).goto = Dest.BOOKING := by
  have hh := C4_amended s0 clsMultiDup "BOOKING" ["BOOKING"] rfl (by decide)
  exact ⟨hh.1.trans (by decide), hh.2.2.1, hh.2.2.2.trans (by decide)⟩

/-- C5, counterexample: with `["BOOKING"]` queued, a CHITCHAT classification
does *not* route to the queue's head — the turn goes to the Guardian and the
queue is discarded (`pending_intents` reset to `[]`). -/
theorem C5_counterexample :
    s5queue.pending_intents = ["BOOKING"]
    ∧ (orchestrator_node s5queue clsChitchat).goto = Dest.GUARDIAN
    ∧ Dest.GUARDIAN ≠ Dest.BOOKING
    ∧ (orchestrator_node s5queue clsChitchat).update.pending_intents = some [] := by
  refine ⟨rfl, rfl, by decide, rfl⟩

/-- C5, amended: the queued-work guard fires only for fresh intents outside
`\x7bMULTI, BOOKING, CAPACITY, CHITCHAT\x7d` (e.g. HELP or OUT_OF_SCOPE):
then the queue's valid head is popped and routed to.  A CHITCHAT side
conversation instead ends the turn at the Guardian and *clears* the queue. -/
theorem C5_amended :
    (∀ (s : AgentState) (cls : Classification) (h : String) (t : List String),
      s.pending_intents = h :: t →
      cls.intent ≠ "MULTI" → cls.intent ≠ "BOOKING" →
      cls.intent ≠ "CAPACITY" → cls.intent ≠ "CHITCHAT" →
      (h = "BOOKING" ∨ h = "CAPACITY") →
      (orchestrator_node s cls).update.current_intent = some (pyLower h)
      ∧ (orchestrator_node s cls).update.pending_intents = some t
      ∧ (orchestrator_node s cls).goto = destOfName h)
    ∧ (∀ (s : AgentState) (cls : Classification),
      cls.intent = "CHITCHAT" →
      (orchestrator_node s cls).update.pending_intents = some []
      ∧ (orchestrator_node s cls).goto = Dest.GUARDIAN
      ∧ (orchestrator_node s cls).update.draft_response
          = some (some chitchatDraft)) := by
  constructor
  · intro s cls h t hp h1 h2 h3 h4 hv
    have hc : orchContinuation s cls
        = some { update := { current_intent := some (pyLower h)
                             language_detected := some cls.language
                             pending_intents := some t }
                 goto := destOfName h } := by
      simp [orchContinuation, hp, h1, h2, h3, h4, hv]
    refine ⟨?_, ?_, ?_⟩ <;> simp [orchestrator_node, hc]
  · intro s cls hi
    have hc : orchContinuation s cls = none := by
      simp [orchContinuation, hi]
    have hm1 : pyContains "CHITCHAT" "MULTI" = false := by decide
    have hm2 : pyContains "CHITCHAT" "BOOKING" = false := by decide
    have hm3 : pyContains "CHITCHAT" "CAPACITY" = false := by decide
    have hm4 : pyContains "CHITCHAT" "HELP" = false := by decide
    have hm5 : pyContains "CHITCHAT" "OUT_OF_SCOPE" = false := by decide
    refine ⟨?_, ?_, ?_⟩ <;>
      simp [orchestrator_node, hc, orchRoute, hi, hm1, hm2, hm3, hm4, hm5]

/-- C5 witness: with `["BOOKING"]` queued, a HELP turn pops and routes to
BOOKING (queue guard), while a CHITCHAT turn clears the queue and ends at the
Guardian. -/
theorem C5_witness :
    (orchestrator_node s5queue clsHelp).update.current_intent = some "booking"
    ∧ (orchestrator_node s5queue clsHelp).update.pending_intents = some []
    ∧ (orchestrator_node s5queue clsHelp).goto = Dest.BOOKING
    ∧ (orchestrator_node s5queue clsChitchat).update.pending_intents = some []
    ∧ (orchestrator_node s5queue clsChitchat).goto = Dest.GUARDIAN := by
  have h1 := C5_amended.1 s5queue clsHelp "BOOKING" [] rfl
    (by decide) (by decide) (by decide) (by decide) (Or.inl rfl)
  have h2 := C5_amended.2 s5queue clsChitchat rfl
  exact ⟨h1.1.trans (by decide), h1.2.1, h1.2.2.trans (by decide),
         h2.1, h2.2.1⟩

/-- C7: the claimed invariant fails in the code — a `ui_payload` produced by
a booking-form turn survives in the checkpointed state, and the next turn
(here a capacity question answered with no tool) ends with the Guardian
writing the *stale* payload back instead of resetting it to null: the form is
delivered again on a turn that produced none. -/
theorem C7_stale_ui_payload_bug :
    (orchestrator_node s7start cls7).update.ui_payload = none
    ∧ (capacity_node envC s7afterOrch cap7resp).update.ui_payload = none
    ∧ (guardian_node s7afterCap "Here you go.").goto = Dest.END_
    ∧ (guardian_node s7afterCap "Here you go.").update.ui_payload
        = some (some formPayload)
    ∧ s7final.ui_payload = some formPayload
    ∧ some formPayload ≠ (none : Option UiPayload) := by
  refine ⟨rfl, rfl, rfl, rfl, rfl, by decide⟩

/-- C3: with permission granted (and the lock never holding the unreachable
empty string), the Guardian routes back to a specialist iff the pending queue
is non-empty, `route_lock` is null and the queue's head is a valid specialist
name; then the head is popped and becomes the (lowercased) `current_intent`.
A set lock ends the turn with `pending_intents` untouched; an invalid head is
dropped and the turn ends. -/
theorem C3_guardian_continuation :
    ∀ (s : AgentState) (c : String),
      check_permission (s.user_role.getD "CARRIER") (s.current_intent.getD "general")
        = true →
      s.route_lock ≠ some "" →
      ((((guardian_node s c).goto = Dest.BOOKING
          ∨ (guardian_node s c).goto = Dest.CAPACITY)
          ↔ (∃ h t, s.pending_intents = h :: t ∧ s.route_lock = none
               ∧ (h = "BOOKING" ∨ h = "CAPACITY")))
      ∧ (∀ h t, s.pending_intents = h :: t → s.route_lock = none →
           (h = "BOOKING" ∨ h = "CAPACITY") →
           (guardian_node s c).update.pending_intents = some t
           ∧ (guardian_node s c).update.current_intent = some (pyLower h)
           ∧ (guardian_node s c).goto = destOfName h)
      ∧ (s.route_lock ≠ none →
           (guardian_node s c).update.pending_intents = none
           ∧ (guardian_node s c).goto = Dest.END_)
      ∧ (∀ h t, s.pending_intents = h :: t → s.route_lock = none →
           ¬(h = "BOOKING" ∨ h = "CAPACITY") →
           (guardian_node s c).update.pending_intents = some t
           ∧ (guardian_node s c).goto = Dest.END_)) := by
  intro s c hperm hlock
  rcases hrl : s.route_lock with _ | lk
  · rcases hp : s.pending_intents with _ | ⟨h0, t0⟩
    · have hg : guardian_node s c
          = { update := guardianBaseUpdate s c, goto := Dest.END_ } := by
        simp [guardian_node, hperm, hrl, hp, pyTruthyOS]
      refine ⟨?_, ?_, ?_, ?_⟩
      · rw [hg]
        constructor
        · rintro (h | h) <;> simp at h
        · rintro ⟨h, t, hht, -⟩
          exact absurd hht (by simp)
      · intro h t hht
        exact absurd hht (by simp)
      · intro hne
        exact absurd rfl hne
      · intro h t hht
        exact absurd hht (by simp)
    · by_cases hv : h0 = "BOOKING" ∨ h0 = "CAPACITY"
      · have hg : guardian_node s c
            = { update := { guardianBaseUpdate s c with
                              pending_intents := some t0
                              current_intent := some (pyLower h0) }
                goto := destOfName h0 } := by
          simp [guardian_node, hperm, hrl, hp, hv, pyTruthyOS]
        refine ⟨?_, ?_, ?_, ?_⟩
        · rw [hg]
          constructor
          · intro _
            exact ⟨h0, t0, rfl, rfl, hv⟩
          · intro _
            rcases hv with hv | hv <;> rw [hv] <;> simp [destOfName]
        · intro h t hht hn hvv
          injection hht with e1 e2
          subst e1; subst e2
          rw [hg]
          exact ⟨rfl, rfl, rfl⟩
        · intro hne
          exact absurd rfl hne
        · intro h t hht hn hvv
          injection hht with e1 e2
          subst e1
          exact absurd hv hvv
      · have hg : guardian_node s c
            = { update := { guardianBaseUpdate s c with
                              pending_intents := some t0 }
                goto := Dest.END_ } := by
          simp [guardian_node, hperm, hrl, hp, hv, pyTruthyOS]
        refine ⟨?_, ?_, ?_, ?_⟩
        · rw [hg]
          constructor
          · rintro (h | h) <;> simp at h
          · rintro ⟨h, t, hht, -, hvv⟩
            injection hht with e1 e2
            subst e1
            exact absurd hvv hv
        · intro h t hht hn hvv
          injection hht with e1 e2
          subst e1
          exact absurd hvv hv
        · intro hne
          exact absurd rfl hne
        · intro h t hht hn hvv
          injection hht with e1 e2
          subst e1; subst e2
          rw [hg]
          exact ⟨rfl, rfl⟩
  · have hlk : lk ≠ "" := by
      rintro rfl
      exact hlock hrl
    have hg : guardian_node s c
        = { update := guardianBaseUpdate s c, goto := Dest.END_ } := by
      simp [guardian_node, hperm, hrl, pyTruthyOS, hlk]
    refine ⟨?_, ?_, ?_, ?_⟩
    · rw [hg]
      constructor
      · rintro (h | h) <;> simp at h
      · rintro ⟨h, t, -, hln, -⟩
        exact absurd hln (by simp)
    · intro h t hht hln
      exact absurd hln (by simp)
    · intro _
      rw [hg]
      exact ⟨rfl, rfl⟩
    · intro h t hht hln
      exact absurd hln (by simp)

/-- C3 witness: queued `["BOOKING"]`, no lock, permission granted — the
Guardian pops the head, sets `current_intent := "booking"` and routes to
BOOKING. -/
theorem C3_witness :
    (guardian_node s3queue "FINAL").update.pending_intents = some []
    ∧ (guardian_node s3queue "FINAL").update.current_intent = some "booking"
    ∧ (guardian_node s3queue "FINAL").goto = Dest.BOOKING := by
  have hh := C3_guardian_continuation s3queue "FINAL" (by decide) (by decide)
  have h2 := hh.2.1 "BOOKING" [] rfl rfl (Or.inl rfl)
  refine ⟨h2.1, ?_, ?_⟩
  · exact h2.2.1.trans (by decide)
  · exact h2.2.2.trans (by decide)

/-- C2: whenever the model response contains one or more tool calls, each
specialist handler executes exactly the first call and appends exactly one
tool-result message (carrying the first call's id and name) to the history —
the remaining calls leave no tool result, whatever they are. -/
theorem C2_single_tool_per_turn :
    ∀ (benv : BookingEnv) (cenv : CapacityEnv) (s : AgentState) (resp : AIMsg)
      (call : ToolCall) (rest : List ToolCall),
      resp.tool_calls = call :: rest →
      (booking_agent_node benv s resp).update.messages.filter Msg.isToolRes
          = [Msg.tool (bookingDispatch benv s call).result call.id call.name]
      ∧ (capacity_node cenv s resp).update.messages.filter Msg.isToolRes
          = [Msg.tool (capacityDispatch cenv call).result call.id call.name] := by
  intro benv cenv s resp call rest h
  constructor
  · simp only [booking_agent_node, h]
    cases hui : (bookingDispatch benv s call).ui_signal
    · by_cases hnf : (bookingDispatch benv s call).needs_followup
      · simp [hui, hnf, Msg.isToolRes, AIMsg.toMsg]
      · simp [hui, hnf, Msg.isToolRes, AIMsg.toMsg]
    · simp [hui, Msg.isToolRes, AIMsg.toMsg]
  · simp only [capacity_node, h]
    by_cases hnf : (capacityDispatch cenv call).needs_followup
    · simp [hnf, Msg.isToolRes, AIMsg.toMsg]
    · simp [hnf, Msg.isToolRes, AIMsg.toMsg]

/-- C2 witness: a stubbed response with two tool calls — only the first
(`get_terminal_schedule`, id `c1`) leaves a tool result in either handler's
history; the second (`check_availability`, id `c2`) leaves none. -/
theorem C2_witness :
    (booking_agent_node envB s0 resp2).update.messages.filter Msg.isToolRes
        = [Msg.tool (ToolRes.str "SCHED") "c1" "get_terminal_schedule"]
    ∧ (capacity_node envC s0 resp2).update.messages.filter Msg.isToolRes
        = [Msg.tool (ToolRes.str "Unknown tool: get_terminal_schedule")
             "c1" "get_terminal_schedule"] := by
  have hh := C2_single_tool_per_turn envB envC s0 resp2 call1 [call2] rfl
  exact ⟨hh.1, hh.2⟩

/-- C8, counterexample: the claim's "bound toolset" reading fails — for a
CARRIER, `get_all_bookings` is not among the bound tools, yet the booking
handler's dispatch chain executes it (returning the backend data) instead of
producing an "Unknown tool" error result. -/
theorem C8_counterexample :
    ((booking_setup envB s0).1.contains "get_all_bookings") = false
    ∧ (bookingDispatch envB s0 callAll).result = ToolRes.str "ALLDATA"
    ∧ ToolRes.str "ALLDATA"
        ≠ ToolRes.str ("Unknown tool: " ++ "get_all_bookings") := by
  refine ⟨by decide, rfl, by decide⟩

/-- C8, amended: a requested tool name outside the handler's *dispatch chain*
(the fixed union of all roles' tools) yields the textual
`Unknown tool: <name>` result recorded as the tool result, and the turn
continues to the Guardian with a response; names inside the chain are
dispatched even when not bound for the current role. -/
theorem C8_amended :
    ∀ (benv : BookingEnv) (cenv : CapacityEnv) (s : AgentState) (resp : AIMsg)
      (call : ToolCall) (rest : List ToolCall),
      resp.tool_calls = call :: rest →
      (call.name ∉ bookingDispatchNames →
        bookingDispatch benv s call
            = { result := ToolRes.str ("Unknown tool: " ++ call.name) }
        ∧ (booking_agent_node benv s resp).goto = Dest.GUARDIAN
        ∧ (booking_agent_node benv s resp).update.draft_response
            = some (some benv.finalResponse.content))
      ∧ (call.name ∉ capacityDispatchNames →
        capacityDispatch cenv call
            = { result := ToolRes.str ("Unknown tool: " ++ call.name) }
        ∧ (capacity_node cenv s resp).goto = Dest.GUARDIAN
        ∧ (capacity_node cenv s resp).update.draft_response
            = some (some cenv.finalResponse.content)) := by
  intro benv cenv s resp call rest h
  constructor
  · intro hn
    simp [bookingDispatchNames] at hn
    obtain ⟨n1, n2, n3, n4, n5, n6, n7⟩ := hn
    have hres : bookingDispatch benv s call
        = { result := ToolRes.str ("Unknown tool: " ++ call.name) } := by
      simp [bookingDispatch, n1, n2, n3, n4, n5, n6, n7]
    refine ⟨hres, ?_, ?_⟩ <;> simp [booking_agent_node, h, hres]
  · intro hn
    simp [capacityDispatchNames] at hn
    obtain ⟨n1, n2, n3, n4, n5⟩ := hn
    have hres : capacityDispatch cenv call
        = { result := ToolRes.str ("Unknown tool: " ++ call.name) } := by
      simp [capacityDispatch, n1, n2, n3, n4, n5]
    refine ⟨hres, ?_, ?_⟩ <;> simp [capacity_node, h, hres]

/-- C8 witness: a hallucinated `make_coffee` call yields the error-string
result and the turn still reaches the Guardian, in both handlers. -/
theorem C8_witness :
    bookingDispatch envB s0 callUnknown
        = { result := ToolRes.str ("Unknown tool: " ++ "make_coffee") }
    ∧ (booking_agent_node envB s0 respUnknown).goto = Dest.GUARDIAN
    ∧ capacityDispatch envC callUnknown
        = { result := ToolRes.str ("Unknown tool: " ++ "make_coffee") }
    ∧ (capacity_node envC s0 respUnknown).goto = Dest.GUARDIAN := by
  have hh := C8_amended envB envC s0 respUnknown callUnknown [] rfl
  have hb := hh.1 (by decide)
  have hc := hh.2 (by decide)
  exact ⟨hb.1, hb.2.1, hc.1, hc.2.1⟩

/-- C10 witness: evaluated at the lowercase role `"carrier"`. -/
theorem C10_witness :
    booking_setup envB sCarrierLower = ([], "")
    ∧ chat_user_role (some "carrier") = "carrier"
    ∧ check_permission "carrier" "booking" = check_permission "CARRIER" "booking" := by
  refine ⟨?_, C10_role_exact_match.1, ?_⟩
  · exact C10_role_exact_match.2.1 envB sCarrierLower "carrier" rfl
      (by decide) (by decide) (by decide)
  · exact C10_role_exact_match.2.2 "carrier" (by decide) (by decide) (by decide)
      "booking"

end ApcsAi
